import Mathlib

/-!
Verification of the `checker` package (apicheck repository): a shallow
embedding of `selector.select_endpoint_sequence` and
`run_checker.check_row_status` together with theorems about endpoint
selection, year resolution, presence classification and error handling.

External collaborators (the Python standard library's `json.loads`, and the
HTTP transport `HttpClient.get_json`) are modelled as explicit functional
parameters, exactly as the spec treats them: a Transport is a pure function
from (path, params) to an outcome triple, and a Parse function either yields
a structured value or a diagnostic message.  The ambient clock read by
`datetime.now().isoformat()` inside `check_row_status` is modelled as an
explicit `now : String` argument.
-/

namespace ApiCheck

/-- Model of the dynamically typed Python values that can appear in a
normalized input row: `None`, strings, integers and booleans. -/
inductive PyVal where
  | none
  | str (s : String)
  | int (n : Int)
  | bool (b : Bool)
deriving DecidableEq, Repr

/-- Python truthiness: `None`, `""`, `0` and `False` are falsy. -/
def PyVal.truthy : PyVal → Bool
  | .none => false
  | .str s => s != ""
  | .int n => n != 0
  | .bool b => b

/-- Python `str()` applied to a value. -/
def PyVal.toStr : PyVal → String
  | .none => "None"
  | .str s => s
  | .int n => toString n
  | .bool b => if b then "True" else "False"

/-- Python `a or b`: returns `a` when `a` is truthy, else `b`. -/
def pyOr (a b : PyVal) : PyVal := if a.truthy then a else b

/-- A normalized input row (produced by `loader.load_input_data`): the fields
`check_row_status` and `select_endpoint_sequence` read via `row.get`.
`Option.none` models an absent key (Python `dict.get` then yields `None` or
the supplied default). -/
structure Row where
  CUSTOMER_TRN : Option PyVal := Option.none
  ACADEMIC_YEAR : Option PyVal := Option.none
  REGISTRATION_NO : Option PyVal := Option.none
  InputRow : Option PyVal := Option.none
deriving DecidableEq, Repr

/-- Query parameters: an insertion-ordered association list, modelling the
Python `dict` of query parameters (`{"trn": ..., "year": ...}`). -/
abbrev Params := List (String × String)

/-- One endpoint candidate: `(path, params)` as built by
`select_endpoint_sequence`. -/
abbrev Candidate := String × Params

/-- Model of `HttpClient.get_json`: a pure function from path and params to
the outcome triple `(status, content_type, body)`.  Per its contract it never
throws; network failure after retries is `status = 0`. -/
abbrev Transport := String → Params → Nat × String × String

/-- Structured data values, as produced by Python `json.loads`. -/
inductive Json where
  | null
  | bool (b : Bool)
  | num (n : Int)
  | str (s : String)
  | arr (xs : List Json)
  | obj (kvs : List (String × Json))

/-- Model of `json.loads`: either a structured value, or the diagnostic
message of the `JSONDecodeError` it raises. -/
abbrev Parse := String → Except String Json

/-- Model of Python `str.strip()`: drop leading and trailing whitespace
characters. -/
def pyStrip (s : String) : String :=
  String.mk (((s.data.dropWhile Char.isWhitespace).reverse.dropWhile Char.isWhitespace).reverse)

/-- Model of the Python slice `s[:n]`: the first `n` characters. -/
def pyTake (s : String) (n : Nat) : String :=
  String.mk (s.data.take n)

/-- The check applied to each value of a parsed dict in the emptiness test:
`isinstance(value, list) and len(value) == 0`. -/
def isEmptyListVal : Json → Bool
  | .arr ys => decide (ys.length = 0)
  | _ => false

/-- The emptiness test applied in `check_row_status` to a successfully
parsed 200 body (run_checker.py lines 172-188): `None`, the empty list, the
empty dict, and any dict one of whose values is an empty list, count as
empty. -/
def is_empty : Json → Bool
  | .null => true
  | .arr xs => decide (xs.length = 0)
  | .obj kvs =>
      if kvs.length = 0 then true
      else kvs.any fun kv => isEmptyListVal kv.2
  | _ => false

/-- The emptiness test as worded by the spec and claim C8: the parsed value
is empty exactly when it is null, an empty list, an empty mapping, or a
mapping at least one of whose values is an empty list. -/
def spec_empty_value (data : Json) : Prop :=
  data = Json.null ∨ data = Json.arr [] ∨ data = Json.obj [] ∨
  ∃ kvs, data = Json.obj kvs ∧ ∃ kv, kv ∈ kvs ∧ kv.2 = Json.arr []

/-- Hexadecimal digit (uppercase), for percent-encoding. -/
def hexDigitChar (n : Nat) : Char :=
  if n < 10 then Char.ofNat (48 + n) else Char.ofNat (55 + n)

/-- Percent-encoding of one byte, e.g. `%2F`. -/
def percentEncodeByte (b : Nat) : String :=
  String.mk ['%', hexDigitChar (b / 16), hexDigitChar (b % 16)]

/-- Model of `urllib.parse.quote_plus`: alphanumerics and `_.-~` are kept,
a space becomes `+`, every other character is percent-encoded per UTF-8
byte. -/
def quotePlus (s : String) : String :=
  String.join <| s.data.map fun c =>
    if c = ' ' then "+"
    else if c.isAlphanum || c = '_' || c = '.' || c = '-' || c = '~' then
      String.singleton c
    else
      String.join (((String.singleton c).toUTF8.toList).map fun b =>
        percentEncodeByte b.toNat)

/-- Model of `urllib.parse.urlencode` on an ordered parameter list. -/
def urlencode (params : Params) : String :=
  String.intercalate "&" (params.map fun kv => quotePlus kv.1 ++ "=" ++ quotePlus kv.2)

/-- The result dictionary produced by `check_row_status` for one row. -/
structure Verdict where
  InputRow : PyVal
  TRN : PyVal
  ApplicationNumber : PyVal
  YearChecked : String
  EndpointUsed : String
  HTTPStatus : Nat
  Present : Option Bool
  Note : String
  CheckedAt : String
deriving DecidableEq, Repr

/-- The TRN extraction of selector.py line 70:
`str(row.get('CUSTOMER_TRN') or '').strip()`. -/
def customer_trn (row : Row) : String :=
  pyStrip (PyVal.toStr (pyOr (row.CUSTOMER_TRN.getD PyVal.none) (PyVal.str "")))

/-- Embedding of `selector.select_endpoint_sequence` (selector.py lines
36-97): extract the trimmed TRN; if empty, return no candidates; otherwise
one candidate, the v2 ByYearTRN endpoint with the trimmed TRN and the
default year (the code always uses `default_year`, by deliberate comment:
"Always use the default year from settings"). -/
def select_endpoint_sequence (row : Row) (default_year : String) : List Candidate :=
  let trn := customer_trn row
  if trn = "" then []
  else
    let year := default_year
    [("/api/v2/Applications/ByYearTRN", [("trn", trn), ("year", year)])]

/-- The candidate loop of `check_row_status` (run_checker.py lines 139-228),
instrumented to also return the list of Transport calls made.  Each step:
skip candidates with empty params; call Transport; record
`EndpointUsed`/`HTTPStatus`; on 200 parse the body and either terminate
Present (non-empty), terminate on a parse error, or continue (empty); on 404
continue; on any other status terminate with an error note.  On exhaustion,
if `Present` is still `None`, record the absent verdict. -/
def checkLoop (transport : Transport) (parse : Parse) :
    List Candidate → Verdict → Verdict × List Candidate
  | [], acc =>
      (if acc.Present = Option.none then
         { acc with Present := some false, Note := "Absent (404 on all endpoints)" }
       else acc, [])
  | (path, params) :: rest, acc =>
      if params.isEmpty then checkLoop transport parse rest acc
      else
        let out := transport path params
        let status := out.1
        let body := out.2.2
        let body_snippet := pyStrip (pyTake body 200)
        let acc2 := { acc with
          EndpointUsed := path ++ "?" ++ urlencode params,
          HTTPStatus := status }
        if status = 200 then
          match parse body with
          | .ok data =>
              if is_empty data = true then
                let r := checkLoop transport parse rest acc2
                (r.1, (path, params) :: r.2)
              else
                ({ acc2 with Present := some true, Note := "Present (200 OK with data)" },
                 [(path, params)])
          | .error e =>
              let note := "Error: Invalid JSON response - " ++ pyTake e 50
              ({ acc2 with Present := some false, Note := note }, [(path, params)])
        else if status = 404 then
          let r := checkLoop transport parse rest acc2
          (r.1, (path, params) :: r.2)
        else
          let note := "Error (" ++ toString status ++ "): " ++ body_snippet
          ({ acc2 with Present := some false, Note := note }, [(path, params)])

/-- The base result dictionary built by `check_row_status` before any
Transport call (run_checker.py lines 120-130): `row.get('InputRow')`,
`row.get('CUSTOMER_TRN', '')`, `row.get('REGISTRATION_NO', '')`, the year
being checked, the `NO_STRATEGY` sentinel, status 0, `Present = None`, the
no-valid-identifier note, and the timestamp read at entry. -/
def base_result (row : Row) (default_year : String) (now : String) : Verdict :=
  { InputRow := row.InputRow.getD PyVal.none,
    TRN := row.CUSTOMER_TRN.getD (PyVal.str ""),
    ApplicationNumber := row.REGISTRATION_NO.getD (PyVal.str ""),
    YearChecked := default_year,
    EndpointUsed := "NO_STRATEGY",
    HTTPStatus := 0,
    Present := Option.none,
    Note := "No valid identifier (CUSTOMER_TRN) found",
    CheckedAt := now }

/-- Embedding of `run_checker.check_row_status` (run_checker.py lines
79-228), instrumented with the list of Transport calls made.  `now` is the
value of `datetime.now().isoformat()` read at entry. -/
def check_row_status_traced (transport : Transport) (parse : Parse) (row : Row)
    (default_year : String) (now : String) : Verdict × List Candidate :=
  let sequence := select_endpoint_sequence row default_year
  if sequence.isEmpty then (base_result row default_year now, [])
  else checkLoop transport parse sequence (base_result row default_year now)

/-- The verdict returned by `check_row_status` (the traced variant without
its instrumentation). -/
def check_row_status (transport : Transport) (parse : Parse) (row : Row)
    (default_year : String) (now : String) : Verdict :=
  (check_row_status_traced transport parse row default_year now).1

/-- The candidate loop with Python exception propagation made explicit in
the `Except` monad: `json.loads` raising a `JSONDecodeError` is a thrown
error, and the `try`/`except` of run_checker.py lines 163-205 is the
handler; the `continue` inside the `try` block leaves the protected region,
so the recursive call sits outside the handler, exactly as in the source.
An uncaught exception would surface as `Except.error`. -/
def checkLoopE (transport : Transport) (parse : Parse) :
    List Candidate → Verdict → Except String (Verdict × List Candidate)
  | [], acc =>
      .ok (if acc.Present = Option.none then
             { acc with Present := some false, Note := "Absent (404 on all endpoints)" }
           else acc, [])
  | (path, params) :: rest, acc =>
      if params.isEmpty then checkLoopE transport parse rest acc
      else
        let out := transport path params
        let status := out.1
        let body := out.2.2
        let body_snippet := pyStrip (pyTake body 200)
        let acc2 := { acc with
          EndpointUsed := path ++ "?" ++ urlencode params,
          HTTPStatus := status }
        if status = 200 then
          let tried : Except String (Option Verdict) :=
            Except.tryCatch
              (Except.bind (parse body) fun data =>
                if is_empty data = true then
                  Except.ok Option.none
                else
                  Except.ok (some { acc2 with Present := some true, Note := "Present (200 OK with data)" }))
              (fun e =>
                let note := "Error: Invalid JSON response - " ++ pyTake e 50
                Except.ok (some { acc2 with Present := some false, Note := note }))
          match tried with
          | .error e => .error e
          | .ok (some v) => .ok (v, [(path, params)])
          | .ok Option.none =>
              match checkLoopE transport parse rest acc2 with
              | .error e => .error e
              | .ok r => .ok (r.1, (path, params) :: r.2)
        else if status = 404 then
          match checkLoopE transport parse rest acc2 with
          | .error e => .error e
          | .ok r => .ok (r.1, (path, params) :: r.2)
        else
          let note := "Error (" ++ toString status ++ "): " ++ body_snippet
          .ok ({ acc2 with Present := some false, Note := note }, [(path, params)])

/-- The resolver with exception propagation made explicit: `Except.error`
would mean an exception escaped `check_row_status`. -/
def check_row_statusE (transport : Transport) (parse : Parse) (row : Row)
    (default_year : String) (now : String) : Except String (Verdict × List Candidate) :=
  let sequence := select_endpoint_sequence row default_year
  if sequence.isEmpty then .ok (base_result row default_year now, [])
  else checkLoopE transport parse sequence (base_result row default_year now)

/-- Abbreviation used in theorem statements: the working verdict after
recording one Transport call (run_checker.py lines 153-155). -/
def withCall (acc : Verdict) (path : String) (params : Params) (status : Nat) : Verdict :=
  { acc with EndpointUsed := path ++ "?" ++ urlencode params, HTTPStatus := status }

/-- Abbreviation used in theorem statements: the working verdict after a
terminal classification. -/
def withPresent (acc : Verdict) (pr : Option Bool) (note : String) : Verdict :=
  { acc with Present := pr, Note := note }

/-- A candidate whose Transport outcome does not terminate the loop: a 404,
or a 200 whose body parses to an empty value. -/
def missOutcome (t : Transport) (p : Parse) (c : Candidate) : Prop :=
  (t c.1 c.2).1 = 404 ∨
  ((t c.1 c.2).1 = 200 ∧ ∃ data, p (t c.1 c.2).2.2 = Except.ok data ∧ is_empty data = true)

/-! Concrete fixtures used by counterexamples and witnesses. -/

/-- A row whose TRN is the spec example `"100379893"`. -/
def rowTRN : Row := { CUSTOMER_TRN := some (PyVal.str "100379893") }

/-- A row with a TRN and an all-digit `ACADEMIC_YEAR` of `"2024"`. -/
def rowTRNYear : Row :=
  { CUSTOMER_TRN := some (PyVal.str "100379893"),
    ACADEMIC_YEAR := some (PyVal.str "2024") }

/-- A row whose TRN field is whitespace-only. -/
def rowWs : Row := { CUSTOMER_TRN := some (PyVal.str "   ") }

/-- A row whose TRN field is the falsy integer `0`. -/
def rowZeroInt : Row := { CUSTOMER_TRN := some (PyVal.int 0) }

/-- A row whose TRN field is the truthy string `"0"`. -/
def rowZeroStr : Row := { CUSTOMER_TRN := some (PyVal.str "0") }

/-- A Transport stub returning 404 on every call. -/
def transport404 : Transport := fun _ _ => (404, "application/json", "")

/-- A Transport stub returning 200 with a body that parses to non-empty
data. -/
def transportData : Transport := fun _ _ => (200, "application/json", "DATA")

/-- A Transport stub returning 200 with a body that parses to an empty
list. -/
def transportEmpty : Transport := fun _ _ => (200, "application/json", "EMPTY")

/-- A Transport stub returning 200 with an unparseable body. -/
def transportBad : Transport := fun _ _ => (200, "text/html", "BAD")

/-- A Transport stub returning a 500 with a padded body. -/
def transport500 : Transport := fun _ _ => (500, "text/plain", "  Internal Server Error  ")

/-- A Transport stub modelling exhausted-retries network failure: status 0
with a descriptive body, per the `HttpClient.get_json` contract. -/
def transportNet0 : Transport := fun _ _ => (0, "", "Network error: ConnectTimeout")

/-- A Parse stub modelling `json.loads` on the fixture bodies: `"EMPTY"`
parses to the empty list, `"DATA"` parses to a non-empty object, everything
else raises with the standard diagnostic. -/
def parseStub : Parse := fun s =>
  if s = "EMPTY" then .ok (Json.arr [])
  else if s = "DATA" then .ok (Json.obj [("id", Json.num 42)])
  else .error "Expecting value: line 1 column 1 (char 0)"

/-- A neutral working verdict used as loop accumulator in witnesses. -/
def vd0 : Verdict :=
  { InputRow := PyVal.none, TRN := PyVal.str "", ApplicationNumber := PyVal.str "",
    YearChecked := "2025", EndpointUsed := "NO_STRATEGY", HTTPStatus := 0,
    Present := Option.none, Note := "No valid identifier (CUSTOMER_TRN) found",
    CheckedAt := "T0" }

/-! Helper lemmas. -/

theorem checkLoop_CheckedAt (t : Transport) (p : Parse) :
    ∀ (seq : List Candidate) (acc : Verdict),
      ((checkLoop t p seq acc).1).CheckedAt = acc.CheckedAt := by
  intro seq
  induction seq with
  | nil =>
      intro acc
      simp only [checkLoop]
      by_cases h : acc.Present = Option.none
      · simp [h]
      · simp [h]
  | cons c rest ih =>
      intro acc
      obtain ⟨path, params⟩ := c
      simp only [checkLoop]
      by_cases hemp : params.isEmpty
      · simp only [hemp, if_true]
        exact ih acc
      · simp only [hemp, Bool.false_eq_true, if_false]
        split
        · split
          · split
            · exact ih _
            · rfl
          · rfl
        · split
          · exact ih _
          · rfl

theorem checkLoop_setCheckedAt (t : Transport) (p : Parse) :
    ∀ (seq : List Candidate) (i trn an : PyVal) (yc eu : String) (hs : Nat)
      (pr : Option Bool) (nt ca s : String),
      checkLoop t p seq ⟨i, trn, an, yc, eu, hs, pr, nt, s⟩ =
        ({ (checkLoop t p seq ⟨i, trn, an, yc, eu, hs, pr, nt, ca⟩).1 with CheckedAt := s },
         (checkLoop t p seq ⟨i, trn, an, yc, eu, hs, pr, nt, ca⟩).2) := by
  intro seq
  induction seq with
  | nil =>
      intro i trn an yc eu hs pr nt ca s
      simp only [checkLoop]
      by_cases h : pr = Option.none
      · subst h; simp
      · simp [h]
  | cons c rest ih =>
      intro i trn an yc eu hs pr nt ca s
      obtain ⟨path, params⟩ := c
      simp only [checkLoop]
      by_cases hemp : params.isEmpty
      · simp only [hemp, if_true]
        exact ih i trn an yc eu hs pr nt ca s
      · simp only [hemp, Bool.false_eq_true, if_false]
        split
        · split
          · split
            · rw [ih i trn an yc (path ++ "?" ++ urlencode params) ((t path params).1) pr nt ca s]
            · rfl
          · rfl
        · split
          · rw [ih i trn an yc (path ++ "?" ++ urlencode params) ((t path params).1) pr nt ca s]
          · rfl

theorem checkLoopE_eq (t : Transport) (p : Parse) :
    ∀ (seq : List Candidate) (acc : Verdict),
      checkLoopE t p seq acc = Except.ok (checkLoop t p seq acc) := by
  intro seq
  induction seq with
  | nil => intro acc; rfl
  | cons c rest ih =>
      intro acc
      obtain ⟨path, params⟩ := c
      simp only [checkLoopE, checkLoop]
      by_cases hemp : params.isEmpty
      · simp only [hemp, if_true]
        exact ih acc
      · simp only [hemp, Bool.false_eq_true, if_false]
        split
        · rcases hp : p (t path params).2.2 with e | data
          · simp only [hp, Except.tryCatch, Except.bind]
          · simp only [hp, Except.tryCatch, Except.bind]
            by_cases hdat : is_empty data = true
            · simp only [hdat, if_true]
              rw [ih]
            · simp only [hdat, Bool.false_eq_true, if_false]
        · split
          · rw [ih]
          · rfl

theorem checkLoop_miss_step (t : Transport) (p : Parse) (path : String) (params : Params)
    (rest : List Candidate) (acc : Verdict)
    (hcne : params ≠ []) (hmiss : missOutcome t p (path, params)) :
    checkLoop t p ((path, params) :: rest) acc =
      ((checkLoop t p rest (withCall acc path params (t path params).1)).1,
       (path, params) :: (checkLoop t p rest (withCall acc path params (t path params).1)).2) := by
  have hemp : params.isEmpty = false := by
    cases params with
    | nil => exact absurd rfl hcne
    | cons q qs => rfl
  rcases hmiss with h404 | ⟨h200, data, hp, hdat⟩
  · have h404b : (t path params).1 = 404 := h404
    have hn200 : ¬((t path params).1 = 200) := by rw [h404b]; decide
    simp only [checkLoop, hemp, Bool.false_eq_true, if_false]
    rw [if_neg hn200, if_pos h404b]
    rfl
  · have h200b : (t path params).1 = 200 := h200
    have hpb : p (t path params).2.2 = Except.ok data := hp
    simp only [checkLoop, hemp, Bool.false_eq_true, if_false]
    rw [if_pos h200b, hpb]
    simp only [hdat, if_true]
    rfl

theorem checkLoop_allMiss (t : Transport) (p : Parse) :
    ∀ (seq : List Candidate) (acc : Verdict),
      acc.Present = Option.none →
      (∀ c ∈ seq, c.2 ≠ [] ∧ missOutcome t p c) →
      ∀ (hne : seq ≠ []),
      checkLoop t p seq acc =
        (withPresent
          (withCall acc (seq.getLast hne).1 (seq.getLast hne).2
            (t (seq.getLast hne).1 (seq.getLast hne).2).1)
          (some false) "Absent (404 on all endpoints)", seq) := by
  intro seq
  induction seq with
  | nil => intro acc _ _ hne; exact absurd rfl hne
  | cons c rest ih =>
      intro acc hpr hall hne
      obtain ⟨path, params⟩ := c
      obtain ⟨hcne, hmiss⟩ := hall (path, params) (List.mem_cons_self _ _)
      rw [checkLoop_miss_step t p path params rest acc hcne hmiss]
      cases rest with
      | nil =>
          simp only [checkLoop]
          rw [if_pos (show (withCall acc path params (t path params).1).Present = Option.none from hpr)]
          rfl
      | cons c2 rest2 =>
          rw [ih (withCall acc path params (t path params).1) hpr
            (fun x hx => hall x (List.mem_cons_of_mem _ hx)) (List.cons_ne_nil c2 rest2)]
          rfl

theorem traced_noTrn (t : Transport) (p : Parse) (row : Row) (dy now : String)
    (h : customer_trn row = "") :
    select_endpoint_sequence row dy = [] ∧
    check_row_status_traced t p row dy now = (base_result row dy now, []) := by
  have hseq : select_endpoint_sequence row dy = [] := by
    simp [select_endpoint_sequence, h]
  refine ⟨hseq, ?_⟩
  simp [check_row_status_traced, hseq]


theorem traced_setCheckedAt (t : Transport) (p : Parse) (row : Row) (dy n1 n2 : String) :
    check_row_status_traced t p row dy n2 =
      ({ (check_row_status_traced t p row dy n1).1 with CheckedAt := n2 },
       (check_row_status_traced t p row dy n1).2) := by
  unfold check_row_status_traced
  by_cases h : (select_endpoint_sequence row dy).isEmpty
  · simp only [h, if_true]
    rfl
  · simp only [h, Bool.false_eq_true, if_false]
    exact checkLoop_setCheckedAt t p (select_endpoint_sequence row dy)
      (row.InputRow.getD PyVal.none) (row.CUSTOMER_TRN.getD (PyVal.str ""))
      (row.REGISTRATION_NO.getD (PyVal.str "")) dy "NO_STRATEGY" 0 Option.none
      "No valid identifier (CUSTOMER_TRN) found" n1 n2

theorem traced_CheckedAt (t : Transport) (p : Parse) (row : Row) (dy now : String) :
    (check_row_status t p row dy now).CheckedAt = now := by
  unfold check_row_status check_row_status_traced
  by_cases h : (select_endpoint_sequence row dy).isEmpty
  · simp [h, base_result]
  · simp only [h, Bool.false_eq_true, if_false]
    rw [checkLoop_CheckedAt]
    rfl

theorem isEmptyListVal_eq_true (j : Json) : isEmptyListVal j = true ↔ j = Json.arr [] := by
  cases j <;> simp [isEmptyListVal, List.length_eq_zero]

/-- C1 (amended): for every row whose CUSTOMER_TRN trims to a non-empty
string, `select_endpoint_sequence` returns exactly ONE candidate (not four):
the v2 ByYearTRN endpoint `/api/v2/Applications/ByYearTRN`, carrying
`trn` = the trimmed TRN and `year` = the resolved year.  The v1 and TRN-only
fallback variants claimed by the spec do not exist in the code. -/
theorem C1_selector_single_v2_candidate (row : Row) (dy : String) (h : customer_trn row ≠ "") :
    select_endpoint_sequence row dy =
      [("/api/v2/Applications/ByYearTRN", [("trn", customer_trn row), ("year", dy)])] := by
  simp [select_endpoint_sequence, h]

/-- C1 counterexample: for the spec example row with TRN "100379893" the
sequence has exactly 1 candidate, not the 4 the claim asserts. -/
theorem C1_counterexample :
    customer_trn rowTRN = "100379893" ∧
    (select_endpoint_sequence rowTRN "2025").length = 1 ∧
    (select_endpoint_sequence rowTRN "2025").length ≠ 4 := by decide

/-- C1 witness: the amended theorem applied at the concrete spec example
row with TRN "100379893" and default year "2025". -/
theorem C1_witness :
    customer_trn rowTRN ≠ "" ∧
    select_endpoint_sequence rowTRN "2025" =
      [("/api/v2/Applications/ByYearTRN", [("trn", customer_trn rowTRN), ("year", "2025")])] :=
  ⟨by decide, C1_selector_single_v2_candidate rowTRN "2025" (by decide)⟩

/-- C2 (amended): year resolution never consults ACADEMIC_YEAR: the
candidate sequence is invariant under any change of the ACADEMIC_YEAR
field, and every candidate carries `year` = defaultYear. -/
theorem C2_year_always_default (row : Row) (ay : Option PyVal) (dy : String) :
    select_endpoint_sequence { row with ACADEMIC_YEAR := ay } dy =
      select_endpoint_sequence row dy ∧
    ∀ c ∈ select_endpoint_sequence row dy, c.2.lookup "year" = some dy := by
  refine ⟨rfl, ?_⟩
  intro c hc
  by_cases h : customer_trn row = ""
  · simp [select_endpoint_sequence, h] at hc
  · simp only [select_endpoint_sequence, h, if_neg, if_false, List.mem_singleton] at hc
    subst hc
    rfl

/-- C2 counterexample: a row with the all-digit ACADEMIC_YEAR "2024"
still yields a candidate carrying year "2025" (the default), and no
candidate carries the row year "2024", contradicting the claim. -/
theorem C2_counterexample :
    rowTRNYear.ACADEMIC_YEAR = some (PyVal.str "2024") ∧
    select_endpoint_sequence rowTRNYear "2025" =
      [("/api/v2/Applications/ByYearTRN", [("trn", "100379893"), ("year", "2025")])] ∧
    ∀ c ∈ select_endpoint_sequence rowTRNYear "2025", ("year", "2024") ∉ c.2 := by decide

/-- C2 witness: the amended theorem applied at a concrete row with
ACADEMIC_YEAR "2024". -/
theorem C2_witness :
    select_endpoint_sequence { rowTRN with ACADEMIC_YEAR := some (PyVal.str "2024") } "2025" =
      select_endpoint_sequence rowTRN "2025" :=
  (C2_year_always_default rowTRN (some (PyVal.str "2024")) "2025").1

/-- C3 (amended): the resolver is a deterministic function of
(transport, parse, row, defaultYear, clock reading); the Verdicts of two
calls with identical Transport inputs are identical in every field except
CheckedAt, the same Transport calls are made, and CheckedAt equals the
ambient clock reading taken at entry: timestamping happens inside the
resolver, not in the caller. -/
theorem C3_deterministic_modulo_timestamp (t : Transport) (p : Parse) (row : Row) (dy n1 n2 : String) :
    check_row_status t p row dy n2 = { check_row_status t p row dy n1 with CheckedAt := n2 } ∧
    (check_row_status t p row dy n1).CheckedAt = n1 ∧
    (check_row_status_traced t p row dy n2).2 = (check_row_status_traced t p row dy n1).2 := by
  refine ⟨?_, traced_CheckedAt t p row dy n1, ?_⟩
  · unfold check_row_status
    rw [traced_setCheckedAt t p row dy n1 n2]
  · rw [traced_setCheckedAt t p row dy n1 n2]

/-- C3 counterexample: two calls with identical Transport stub and row
but different clock readings yield Verdicts that are not byte-identical,
because `check_row_status` itself stamps CheckedAt from the ambient
clock. -/
theorem C3_counterexample :
    check_row_status transport404 parseStub rowTRN "2025" "2025-01-01T00:00:00" ≠
      check_row_status transport404 parseStub rowTRN "2025" "2025-01-01T00:00:01" ∧
    (check_row_status transport404 parseStub rowTRN "2025" "2025-01-01T00:00:00").CheckedAt =
      "2025-01-01T00:00:00" := by decide

/-- C3 witness: the amended theorem applied at a concrete transport,
row and pair of clock readings. -/
theorem C3_witness :
    check_row_status transport404 parseStub rowTRN "2025" "T2" =
      { check_row_status transport404 parseStub rowTRN "2025" "T1" with CheckedAt := "T2" } :=
  (C3_deterministic_modulo_timestamp transport404 parseStub rowTRN "2025" "T1" "T2").1

/-- C4 (amended): for every row whose CUSTOMER_TRN trims to the empty
string, the sequence is empty and the resolver returns the base Verdict
with Present = None (not false), HTTPStatus = 0, EndpointUsed =
"NO_STRATEGY" and the no-valid-identifier note, making no Transport
call. -/
theorem C4_no_trn_no_strategy (t : Transport) (p : Parse) (row : Row) (dy now : String)
    (h : customer_trn row = "") :
    select_endpoint_sequence row dy = [] ∧
    check_row_status_traced t p row dy now = (base_result row dy now, []) ∧
    (check_row_status t p row dy now).Present = Option.none ∧
    (check_row_status t p row dy now).HTTPStatus = 0 ∧
    (check_row_status t p row dy now).EndpointUsed = "NO_STRATEGY" ∧
    (check_row_status t p row dy now).Note = "No valid identifier (CUSTOMER_TRN) found" := by
  obtain ⟨h1, h2⟩ := traced_noTrn t p row dy now h
  refine ⟨h1, h2, ?_, ?_, ?_, ?_⟩ <;> simp [check_row_status, h2, base_result]

/-- C4 counterexample: for a whitespace-only TRN the verdict has
Present = None, not Present = false as the claim states. -/
theorem C4_counterexample :
    customer_trn rowWs = "" ∧
    (check_row_status transport404 parseStub rowWs "2025" "T0").Present = Option.none ∧
    (check_row_status transport404 parseStub rowWs "2025" "T0").Present ≠ some false := by decide

/-- C4 witness: the amended theorem applied at the concrete
whitespace-only-TRN row. -/
theorem C4_witness :
    select_endpoint_sequence rowWs "2025" = [] ∧
    check_row_status_traced transport404 parseStub rowWs "2025" "T0" =
      (base_result rowWs "2025" "T0", []) :=
  ⟨(C4_no_trn_no_strategy transport404 parseStub rowWs "2025" "T0" (by decide)).1,
   (C4_no_trn_no_strategy transport404 parseStub rowWs "2025" "T0" (by decide)).2.1⟩

/-- C5 (confirmed): for a candidate whose Transport outcome is 200 with a
parseable body: if the parsed value is non-empty the loop terminates
immediately with Present = true, the "Present (200 OK with data)" note and
this call recorded as EndpointUsed/HTTPStatus, making no further Transport
calls; if it is empty the loop continues with the next candidate. -/
theorem C5_present_terminal_or_continue (t : Transport) (p : Parse) (path : String) (params : Params)
    (rest : List Candidate) (acc : Verdict) (data : Json)
    (hne : params ≠ []) (hst : (t path params).1 = 200)
    (hp : p (t path params).2.2 = Except.ok data) :
    (is_empty data = false →
      checkLoop t p ((path, params) :: rest) acc =
        (withPresent (withCall acc path params 200) (some true) "Present (200 OK with data)",
         [(path, params)])) ∧
    (is_empty data = true →
      checkLoop t p ((path, params) :: rest) acc =
        ((checkLoop t p rest (withCall acc path params 200)).1,
         (path, params) :: (checkLoop t p rest (withCall acc path params 200)).2)) := by
  have hemp : params.isEmpty = false := by
    cases params with
    | nil => exact absurd rfl hne
    | cons q qs => rfl
  constructor
  · intro hdat
    simp only [checkLoop, hemp, Bool.false_eq_true, if_false]
    rw [if_pos hst, hp]
    simp only [hdat, Bool.false_eq_true, if_false]
    rw [hst]
    rfl
  · intro hdat
    have hstep := checkLoop_miss_step t p path params rest acc hne (Or.inr ⟨hst, data, hp, hdat⟩)
    rw [hstep, hst]

/-- C5 witness: the theorem applied to concrete 200-with-data and
200-empty transports at a concrete candidate. -/
theorem C5_witness :
    (checkLoop transportData parseStub [("p1", [("a", "b")])] vd0 =
      (withPresent (withCall vd0 "p1" [("a", "b")] 200) (some true) "Present (200 OK with data)",
       [("p1", [("a", "b")])])) ∧
    (checkLoop transportEmpty parseStub [("p1", [("a", "b")])] vd0 =
      ((checkLoop transportEmpty parseStub [] (withCall vd0 "p1" [("a", "b")] 200)).1,
       ("p1", [("a", "b")]) ::
         (checkLoop transportEmpty parseStub [] (withCall vd0 "p1" [("a", "b")] 200)).2)) :=
  ⟨(C5_present_terminal_or_continue transportData parseStub "p1" [("a", "b")] [] vd0
      (Json.obj [("id", Json.num 42)]) (by decide) rfl rfl).1 rfl,
   (C5_present_terminal_or_continue transportEmpty parseStub "p1" [("a", "b")] [] vd0
      (Json.arr []) (by decide) rfl rfl).2 rfl⟩

/-- C6 (confirmed): a 200 whose body fails to parse terminates the loop at
once with Present = false and a note referencing the parse failure, and any
status other than 200 and 404 (including 0) terminates at once with
Present = false and the note "Error (<status>): <first 200 chars of the
body, trimmed>"; in both cases no Transport call is made for the remaining
candidates. -/
theorem C6_terminal_error_paths (t : Transport) (p : Parse) (path : String) (params : Params)
    (rest : List Candidate) (acc : Verdict) (e : String) (hne : params ≠ []) :
    ((t path params).1 = 200 → p (t path params).2.2 = Except.error e →
      checkLoop t p ((path, params) :: rest) acc =
        (withPresent (withCall acc path params 200) (some false)
          ("Error: Invalid JSON response - " ++ pyTake e 50), [(path, params)])) ∧
    ((t path params).1 ≠ 200 → (t path params).1 ≠ 404 →
      checkLoop t p ((path, params) :: rest) acc =
        (withPresent (withCall acc path params (t path params).1) (some false)
          ("Error (" ++ toString (t path params).1 ++ "): " ++
            pyStrip (pyTake (t path params).2.2 200)),
         [(path, params)])) := by
  have hemp : params.isEmpty = false := by
    cases params with
    | nil => exact absurd rfl hne
    | cons q qs => rfl
  constructor
  · intro hst hp
    simp only [checkLoop, hemp, Bool.false_eq_true, if_false]
    rw [if_pos hst, hp, hst]
    rfl
  · intro h200 h404
    simp only [checkLoop, hemp, Bool.false_eq_true, if_false]
    rw [if_neg h200, if_neg h404]
    rfl

/-- C6 witness: the theorem applied to concrete bad-body 200, 500 and
network-failure (status 0) transports. -/
theorem C6_witness :
    (checkLoop transportBad parseStub [("p1", [("a", "b")])] vd0 =
      (withPresent (withCall vd0 "p1" [("a", "b")] 200) (some false)
        ("Error: Invalid JSON response - " ++
          pyTake "Expecting value: line 1 column 1 (char 0)" 50),
       [("p1", [("a", "b")])])) ∧
    (checkLoop transport500 parseStub [("p1", [("a", "b")])] vd0 =
      (withPresent (withCall vd0 "p1" [("a", "b")] 500) (some false)
        ("Error (" ++ toString (500 : Nat) ++ "): " ++
          pyStrip (pyTake "  Internal Server Error  " 200)),
       [("p1", [("a", "b")])])) ∧
    (checkLoop transportNet0 parseStub [("p1", [("a", "b")])] vd0 =
      (withPresent (withCall vd0 "p1" [("a", "b")] 0) (some false)
        ("Error (" ++ toString (0 : Nat) ++ "): " ++
          pyStrip (pyTake "Network error: ConnectTimeout" 200)),
       [("p1", [("a", "b")])])) :=
  ⟨(C6_terminal_error_paths transportBad parseStub "p1" [("a", "b")] [] vd0
      "Expecting value: line 1 column 1 (char 0)" (by decide)).1 rfl rfl,
   (C6_terminal_error_paths transport500 parseStub "p1" [("a", "b")] [] vd0 "" (by decide)).2
     (by decide) (by decide),
   (C6_terminal_error_paths transportNet0 parseStub "p1" [("a", "b")] [] vd0 "" (by decide)).2
     (by decide) (by decide)⟩

/-- C7 (confirmed): a 404 outcome never terminates the loop (the resolver
continues with the next candidate), and a non-empty sequence all of whose
candidates yield 404 or empty-parsed 200 produces Present = false with the
note "Absent (404 on all endpoints)", retaining the EndpointUsed and
HTTPStatus of the last candidate tried. -/
theorem C7_404_fallthrough_and_absent_exhaustion (t : Transport) (p : Parse) :
    (∀ (path : String) (params : Params) (rest : List Candidate) (acc : Verdict),
      params ≠ [] → (t path params).1 = 404 →
      checkLoop t p ((path, params) :: rest) acc =
        ((checkLoop t p rest (withCall acc path params 404)).1,
         (path, params) :: (checkLoop t p rest (withCall acc path params 404)).2)) ∧
    (∀ (seq : List Candidate) (acc : Verdict),
      acc.Present = Option.none →
      (∀ c ∈ seq, c.2 ≠ [] ∧ missOutcome t p c) →
      ∀ (hne : seq ≠ []),
      checkLoop t p seq acc =
        (withPresent
          (withCall acc (seq.getLast hne).1 (seq.getLast hne).2
            (t (seq.getLast hne).1 (seq.getLast hne).2).1)
          (some false) "Absent (404 on all endpoints)", seq)) := by
  constructor
  · intro path params rest acc hne h404
    have hstep := checkLoop_miss_step t p path params rest acc hne (Or.inl h404)
    rw [hstep, h404]
  · exact checkLoop_allMiss t p

/-- C7 witness: the exhaustion part of the theorem applied to an
all-404 transport over two concrete candidates. -/
theorem C7_witness :
    checkLoop transport404 parseStub [("p1", [("a", "1")]), ("p2", [("b", "2")])] vd0 =
      (withPresent (withCall vd0 "p2" [("b", "2")] 404) (some false)
        "Absent (404 on all endpoints)",
       [("p1", [("a", "1")]), ("p2", [("b", "2")])]) :=
  (C7_404_fallthrough_and_absent_exhaustion transport404 parseStub).2
    [("p1", [("a", "1")]), ("p2", [("b", "2")])] vd0 rfl
    (by
      intro c hc
      simp only [List.mem_cons, List.not_mem_nil, or_false] at hc
      rcases hc with rfl | rfl
      · exact ⟨by decide, Or.inl rfl⟩
      · exact ⟨by decide, Or.inl rfl⟩)
    (by decide)

/-- C8 (confirmed): the emptiness test classifies a parsed value as empty
exactly when it is null, an empty list, an empty mapping, or a mapping at
least one of whose values is an empty list. -/
theorem C8_emptiness_test (data : Json) : is_empty data = true ↔ spec_empty_value data := by
  cases data with
  | null => simp [is_empty, spec_empty_value]
  | bool b => simp [is_empty, spec_empty_value]
  | num n => simp [is_empty, spec_empty_value]
  | str s => simp [is_empty, spec_empty_value]
  | arr xs => simp [is_empty, spec_empty_value, List.length_eq_zero]
  | obj kvs =>
      simp only [is_empty, spec_empty_value]
      by_cases h : kvs.length = 0
      · simp only [if_pos h, true_iff]
        exact Or.inr (Or.inr (Or.inl (by simp [List.length_eq_zero.mp h])))
      · simp only [if_neg h, List.any_eq_true, isEmptyListVal_eq_true]
        constructor
        · rintro ⟨kv, hmem, hkv⟩
          exact Or.inr (Or.inr (Or.inr ⟨kvs, rfl, kv, hmem, hkv⟩))
        · rintro (h1 | h2 | h3 | ⟨kvs2, heq, kv, hmem, hkv⟩)
          · exact Json.noConfusion h1
          · exact Json.noConfusion h2
          · injection h3 with h4
            exact absurd (by rw [h4]; rfl) h
          · injection heq with h4
            subst h4
            exact ⟨kv, hmem, hkv⟩

/-- C8 witness: the theorem applied at a mapping wrapping an empty list
(empty) and at a non-empty mapping without empty-list fields
(non-empty). -/
theorem C8_witness :
    spec_empty_value (Json.obj [("applications", Json.arr [])]) ∧
    ¬ spec_empty_value (Json.obj [("id", Json.num 42)]) :=
  ⟨(C8_emptiness_test (Json.obj [("applications", Json.arr [])])).mp (by rfl),
   fun h => absurd ((C8_emptiness_test (Json.obj [("id", Json.num 42)])).mpr h) (by decide)⟩

/-- C9 (confirmed): with Python exception propagation made explicit in the
`Except` monad, row resolution always returns `Except.ok` of a Verdict, for
every Transport honouring its never-throws contract: no exception escapes
`check_row_status` on any code path. -/
theorem C9_resolver_total_no_exception (t : Transport) (p : Parse) (row : Row) (dy now : String) :
    check_row_statusE t p row dy now =
      Except.ok (check_row_status_traced t p row dy now) := by
  unfold check_row_statusE check_row_status_traced
  by_cases h : (select_endpoint_sequence row dy).isEmpty
  · simp [h]
  · simp only [h, Bool.false_eq_true, if_false]
    exact checkLoopE_eq t p _ _

/-- C9 witness: the theorem applied at a concrete transport and row. -/
theorem C9_witness :
    check_row_statusE transport404 parseStub rowTRN "2025" "T0" =
      Except.ok (check_row_status_traced transport404 parseStub rowTRN "2025" "T0") :=
  C9_resolver_total_no_exception transport404 parseStub rowTRN "2025" "T0"

/-- C10 (confirmed): a row whose CUSTOMER_TRN value is absent or falsy
(None, 0, "", False) yields the empty sequence and the NO_STRATEGY base
verdict with no Transport call, whereas a truthy value whose
stringification trims to non-empty (such as the string "0") yields
candidates. -/
theorem C10_falsy_vs_truthy_trn (t : Transport) (p : Parse) (row : Row) (dy now : String) :
    ((row.CUSTOMER_TRN.getD PyVal.none).truthy = false →
      select_endpoint_sequence row dy = [] ∧
      check_row_status_traced t p row dy now = (base_result row dy now, [])) ∧
    ((row.CUSTOMER_TRN.getD PyVal.none).truthy = true →
      pyStrip (PyVal.toStr (row.CUSTOMER_TRN.getD PyVal.none)) ≠ "" →
      select_endpoint_sequence row dy ≠ []) := by
  constructor
  · intro hfal
    have h : customer_trn row = "" := by
      unfold customer_trn pyOr
      rw [hfal]
      rfl
    exact traced_noTrn t p row dy now h
  · intro htru hne
    have h : customer_trn row = pyStrip (PyVal.toStr (row.CUSTOMER_TRN.getD PyVal.none)) := by
      unfold customer_trn pyOr
      rw [htru]
      rfl
    simp only [select_endpoint_sequence, h]
    rw [if_neg hne]
    exact List.cons_ne_nil _ _

/-- C10 witness: the theorem applied at the falsy integer 0 (rejected)
and the truthy string "0" (accepted). -/
theorem C10_witness :
    (select_endpoint_sequence rowZeroInt "2025" = [] ∧
     check_row_status_traced transport404 parseStub rowZeroInt "2025" "T0" =
       (base_result rowZeroInt "2025" "T0", [])) ∧
    select_endpoint_sequence rowZeroStr "2025" ≠ [] :=
  ⟨(C10_falsy_vs_truthy_trn transport404 parseStub rowZeroInt "2025" "T0").1 (by decide),
   (C10_falsy_vs_truthy_trn transport404 parseStub rowZeroStr "2025" "T0").2 (by decide) (by decide)⟩

end ApiCheck
